import Mathlib

/-!
Verification of the content-splice engine and tool dispatch of the
Confluence MCP server in src/atlassian_mcp_server.py.

Python strings are modelled by Lean strings (wrapped lists of
characters).  Python str.replace (global, leftmost, non-overlapping)
is modelled by pyReplace; the Python substring test `pat in s` by
subOccurs; Python truthiness of optional string arguments by pyTruthy.
The Confluence client is modelled as a record of effectful operations
returning Except values, where Except.error models a raised Python
exception; try/except blocks are modelled by pyTry.  handleCallTool
additionally returns the list of update_page calls it performed, so
that frame properties of the store updates can be stated.
-/

namespace AtlassianMCP

/-- Substring occurrence test, modelling the Python expression `pat in s`.
The empty pattern occurs in every string. -/
def containsSubL (pat : List Char) : List Char → Bool
  | [] => pat.isEmpty
  | c :: t => pat.isPrefixOf (c :: t) || containsSubL pat t

/-- Python `pat in s` on strings. -/
def subOccurs (pat s : String) : Bool := containsSubL pat.data s.data

/-- Fuelled scanner for Python str.replace with a non-empty pattern:
scan left to right, splicing in the replacement at each leftmost
non-overlapping occurrence of the pattern.  The fuel starts at the
length of the scanned list and decreases by one per step, which makes
the definition structurally recursive while never running out before
the scan ends. -/
def pyReplaceCore (old new : List Char) : Nat → List Char → List Char
  | _, [] => []
  | 0, s => s
  | fuel + 1, c :: t =>
    if old.isPrefixOf (c :: t) then
      new ++ pyReplaceCore old new fuel (t.drop (old.length - 1))
    else
      c :: pyReplaceCore old new fuel t

/-- Python s.replace(old, new) on character lists.  For an empty
pattern CPython inserts the replacement before every character and
once more at the end. -/
def pyReplaceL (s old new : List Char) : List Char :=
  if old.isEmpty then new ++ (s.map (fun c => c :: new)).flatten
  else pyReplaceCore old new s.length s

/-- Python s.replace(old, new) on strings: replace every leftmost
non-overlapping occurrence of old by new, scanning left to right. -/
def pyReplace (s old new : String) : String :=
  String.mk (pyReplaceL s.data old.data new.data)

/-- Python truthiness of an optional string argument: None (absent key)
and the empty string are falsy, every other string is truthy. -/
def pyTruthy : Option String → Bool
  | none => false
  | some s => !s.data.isEmpty

/-- The splice computed by the append_to_page handler
(src/atlassian_mcp_server.py lines 407-423): insert_before first,
then insert_after, then plain append at the end; a marker that is
absent from the body degrades to appending at the end. -/
def appendSplice (existing_content new_content : String)
    (insert_before insert_after : Option String) : String :=
  if pyTruthy insert_before then
    let m := insert_before.getD ""
    if subOccurs m existing_content then
      pyReplace existing_content m (new_content ++ m)
    else
      existing_content ++ new_content
  else if pyTruthy insert_after then
    let m := insert_after.getD ""
    if subOccurs m existing_content then
      pyReplace existing_content m (m ++ new_content)
    else
      existing_content ++ new_content
  else
    existing_content ++ new_content

/-- The splice computed by the remove_content handler
(src/atlassian_mcp_server.py line 463): global replace by the empty
string. -/
def removeSplice (existing_content content_to_remove : String) : String :=
  pyReplace existing_content content_to_remove ""

/-- The splice computed by the replace_content handler
(src/atlassian_mcp_server.py line 490): global replace. -/
def replaceSplice (existing_content old_content new_content : String) : String :=
  pyReplace existing_content old_content new_content

/-- A single-quote character, kept out of string literals. -/
def singleQuote : String := String.singleton (Char.ofNat 39)

/-- Python s[:n] on strings: the first n characters. -/
def pyTake (s : String) (n : Nat) : String := String.mk (s.data.take n)

/-- Python s.lower() on strings, modelled characterwise. -/
def pyLower (s : String) : String := String.mk (s.data.map Char.toLower)

/-- Python truthiness of a plain string: only the empty string is falsy. -/
def pyTruthyStr (s : String) : Bool := !s.data.isEmpty

structure SpaceRec where
  key : String
  name : String
  deriving DecidableEq

/-- The result mapping of get_all_spaces; the handler reads its
results field. -/
structure SpacesResult where
  results : List SpaceRec
  deriving DecidableEq

/-- A Confluence page as the handlers read it: id, title, and the
storage body body.storage.value obtained with expand=body.storage. -/
structure PageRec where
  id : String
  title : String
  body : String
  deriving DecidableEq

/-- The TextContent result items returned to the MCP client. -/
structure TextContent where
  type : String
  text : String
  deriving DecidableEq

def tc (t : String) : TextContent := TextContent.mk "text" t

/-- One call to confluence.update_page: the page id, the title and the
body passed to the store. -/
structure UpdateRec where
  page_id : String
  title : String
  body : String
  deriving DecidableEq

/-- The Confluence client operations used by handle_call_tool,
modelled as functions into Except: an Except.error result models a
raised exception (store unreachable, unknown id or space, and so on).
The functions are arbitrary, so theorems quantified over a Gateway
cover every gateway behaviour. -/
structure Gateway where
  url : String
  get_all_spaces : Nat → Except String SpacesResult
  get_child_pages : String → Except String (List PageRec)
  get_all_pages_from_space : String → Nat → Except String (List PageRec)
  get_page_by_id : String → Except String PageRec
  create_page : String → String → String → Option String → Except String PageRec
  update_page : String → String → String → Except String Unit

/-- The arguments mapping of a tool call: dict[str, Any] | None, with
all values used as strings. -/
abbrev Args := List (String × String)

/-- Python arguments[k]: raises on a None mapping or a missing key. -/
def pyGetItem (args : Option Args) (k : String) : Except String String :=
  match args with
  | none => Except.error "TypeError: NoneType object is not subscriptable"
  | some d =>
    match d.lookup k with
    | some v => Except.ok v
    | none => Except.error ("KeyError: " ++ k)

/-- Python arguments.get(k): None when the key is absent. -/
def pyGetOpt (args : Option Args) (k : String) : Except String (Option String) :=
  match args with
  | none => Except.error "AttributeError: NoneType object has no attribute get"
  | some d => Except.ok (d.lookup k)

/-- Python arguments.get(k, default). -/
def pyGetD (args : Option Args) (k : String) (dflt : String) : Except String String :=
  match args with
  | none => Except.error "AttributeError: NoneType object has no attribute get"
  | some d => Except.ok ((d.lookup k).getD dflt)

/-- Attribute access on the possibly uninitialized global confluence
client: on None every method access raises AttributeError. -/
def pyAttr (c : Option Gateway) : Except String Gateway :=
  match c with
  | none => Except.error "AttributeError: NoneType object has no attribute"
  | some g => Except.ok g

/-- A Python try/except Exception block that renders any raised
exception as a single TextContent message. -/
def pyTry (x : Except String (List TextContent)) (render : String → String) :
    Except String (List TextContent) :=
  match x with
  | Except.ok r => Except.ok r
  | Except.error e => Except.ok [tc (render e)]

/-- create_simple_content from src/atlassian_mcp_server.py lines 40-81. -/
def create_simple_content (title content code file_path : String) : String :=
  if pyTruthyStr content then content
  else if pyTruthyStr code then
    let lines := code.splitOn "\n"
    let functions := (lines.map String.trim).filter (fun l => l.startsWith "def ")
    let classes := (lines.map String.trim).filter (fun l => l.startsWith "class ")
    let imports := (lines.map String.trim).filter
      (fun l => l.startsWith "import " || l.startsWith "from ")
    let page0 := "<h1>" ++ title ++ "</h1>"
    let page1 :=
      if pyTruthyStr file_path then
        page0 ++ "<p><strong>File:</strong> <code>" ++ file_path ++ "</code></p>"
      else page0
    let page2 :=
      if !imports.isEmpty then
        ((imports.take 5).foldl
          (fun acc imp => acc ++ "<li><code>" ++ imp ++ "</code></li>")
          (page1 ++ "<h2>Dependencies</h2><ul>")) ++ "</ul>"
      else page1
    let page3 :=
      if !classes.isEmpty then
        ((classes.take 5).foldl
          (fun acc cls => acc ++ "<li><code>" ++ cls ++ "</code></li>")
          (page2 ++ "<h2>Classes</h2><ul>")) ++ "</ul>"
      else page2
    let page4 :=
      if !functions.isEmpty then
        ((functions.take 10).foldl
          (fun acc func => acc ++ "<li><code>" ++ func ++ "</code></li>")
          (page3 ++ "<h2>Functions</h2><ul>")) ++ "</ul>"
      else page3
    page4 ++ "<h2>Source Code</h2>"
      ++ "<ac:structured-macro ac:name=\"code\"><ac:parameter ac:name=\"language\">python</ac:parameter>"
      ++ "<ac:plain-text-body><![CDATA[" ++ code ++ "]]></ac:plain-text-body></ac:structured-macro>"
  else "<h1>" ++ title ++ "</h1><p>Documentation page created.</p>"

/-- create_code_documentation_content from src/atlassian_mcp_server.py
lines 83-106. -/
def create_code_documentation_content (title code_snippet functionality_explanation
    file_context project_context : String) : String :=
  let content := "<h1><strong>" ++ title ++ "</strong></h1>"
  let content := content ++ "<h2><strong>Code</strong></h2>"
    ++ "<ac:structured-macro ac:name=\"code\"><ac:parameter ac:name=\"language\">python</ac:parameter>"
    ++ "<ac:plain-text-body><![CDATA[" ++ code_snippet ++ "]]></ac:plain-text-body></ac:structured-macro>"
  let content := content ++ "<h2><strong>Functionality</strong></h2>"
    ++ "<p>" ++ functionality_explanation ++ "</p>"
  let content :=
    if pyTruthyStr file_context then
      content ++ "<h2><strong>File Context</strong></h2><p>" ++ file_context ++ "</p>"
    else content
  let content :=
    if pyTruthyStr project_context then
      content ++ "<h2><strong>Project Context</strong></h2><p>" ++ project_context ++ "</p>"
    else content
  content

/-- The list_spaces handler (lines 245-256). -/
def listSpacesBranch (c : Option Gateway) :
    Except String (List TextContent) × List UpdateRec :=
  match c with
  | none => (Except.ok [tc "Error: Confluence not initialized"], [])
  | some gw =>
    (pyTry
      (do
        let spaces ← gw.get_all_spaces 50
        let result := spaces.results.foldl
          (fun acc space => acc ++ "**" ++ space.key ++ "**: " ++ space.name ++ "\n")
          "Available Confluence Spaces:\n\n"
        pure [tc result])
      (fun e => "Error listing spaces: " ++ e), [])

/-- The get_pages handler (lines 259-277). -/
def getPagesBranch (c : Option Gateway) (args : Option Args) :
    Except String (List TextContent) × List UpdateRec :=
  (pyTry
    (do
      let space ← pyGetItem args "space"
      let parent_id ← pyGetOpt args "parent_id"
      let gw ← pyAttr c
      let pr ←
        if pyTruthy parent_id then do
          let pages ← gw.get_child_pages (parent_id.getD "")
          pure (pages, "Pages under parent " ++ parent_id.getD "" ++ ":\n")
        else do
          let pages ← gw.get_all_pages_from_space space 50
          pure (pages, "Pages in space " ++ space ++ ":\n")
      let result := pr.1.foldl
        (fun acc page => acc ++ "- " ++ page.id ++ ": " ++ page.title ++ "\n") pr.2
      pure [tc result])
    (fun e => "Error getting pages: " ++ e), [])

/-- The get_page_content handler (lines 280-291). -/
def getPageContentBranch (c : Option Gateway) (args : Option Args) :
    Except String (List TextContent) × List UpdateRec :=
  (pyTry
    (do
      let page_id ← pyGetItem args "page_id"
      let gw ← pyAttr c
      let page ← gw.get_page_by_id page_id
      let result := "Page: " ++ page.title ++ "\n" ++ "ID: " ++ page.id ++ "\n"
        ++ "Content preview: " ++ pyTake page.body 500 ++ "...\n"
      pure [tc result])
    (fun e => "Error getting page content: " ++ e), [])

/-- The find_page handler (lines 294-309). -/
def findPageBranch (c : Option Gateway) (args : Option Args) :
    Except String (List TextContent) × List UpdateRec :=
  (pyTry
    (do
      let space ← pyGetItem args "space"
      let title ← pyGetItem args "title"
      let gw ← pyAttr c
      let pages ← gw.get_all_pages_from_space space 100
      let matched := pages.filter (fun p => subOccurs (pyLower title) (pyLower p.title))
      let result := matched.foldl
        (fun acc page => acc ++ "- " ++ page.id ++ ": " ++ page.title ++ "\n")
        ("Pages matching " ++ singleQuote ++ title ++ singleQuote ++ " in " ++ space ++ ":\n")
      pure [tc result])
    (fun e => "Error finding pages: " ++ e), [])

/-- The create_page handler (lines 312-349). -/
def createPageBranch (c : Option Gateway) (args : Option Args) :
    Except String (List TextContent) × List UpdateRec :=
  match c with
  | none =>
    (Except.ok [tc ("Confluence isn" ++ singleQuote ++ "t connected, can"
      ++ singleQuote ++ "t create pages right now")], [])
  | some gw =>
    (pyTry
      (do
        let space ← pyGetItem args "space"
        let title ← pyGetItem args "title"
        let content ← pyGetD args "content" ""
        let code ← pyGetD args "code" ""
        let file_path ← pyGetD args "file_path" ""
        let parent_id ← pyGetOpt args "parent_id"
        let page_content := create_simple_content title content code file_path
        let page ←
          if pyTruthy parent_id then gw.create_page space title page_content parent_id
          else gw.create_page space title page_content none
        let page_url := gw.url ++ "/pages/viewpage.action?pageId=" ++ page.id
        pure [tc ("**Page created!**\n\n**Title:** " ++ title ++ "\n**URL:** " ++ page_url)])
      (fun e => "Couldn" ++ singleQuote ++ "t create the page: " ++ e), [])

/-- The create_code_documentation handler (lines 352-391). -/
def createCodeDocumentationBranch (c : Option Gateway) (args : Option Args) :
    Except String (List TextContent) × List UpdateRec :=
  match c with
  | none =>
    (Except.ok [tc ("Confluence isn" ++ singleQuote ++ "t connected, can"
      ++ singleQuote ++ "t create documentation right now")], [])
  | some gw =>
    (pyTry
      (do
        let space ← pyGetItem args "space"
        let title ← pyGetItem args "title"
        let code_snippet ← pyGetItem args "code_snippet"
        let functionality_explanation ← pyGetItem args "functionality_explanation"
        let file_context ← pyGetD args "file_context" ""
        let project_context ← pyGetD args "project_context" ""
        let parent_id ← pyGetOpt args "parent_id"
        let page_content := create_code_documentation_content
          title code_snippet functionality_explanation file_context project_context
        let page ←
          if pyTruthy parent_id then gw.create_page space title page_content parent_id
          else gw.create_page space title page_content none
        let page_url := gw.url ++ "/pages/viewpage.action?pageId=" ++ page.id
        pure [tc ("**Code documentation created!**\n\n**Title:** " ++ title
          ++ "\n**URL:** " ++ page_url)])
      (fun e => "Couldn" ++ singleQuote ++ "t create the code documentation: " ++ e), [])

/-- The part of the append_to_page handler before update_page (lines
396-423): read the arguments, fetch the current page, and compute the
spliced body. -/
def appendPre (c : Option Gateway) (args : Option Args) :
    Except String (Gateway × String × PageRec × String) := do
  let page_id ← pyGetItem args "page_id"
  let new_content ← pyGetItem args "new_content"
  let insert_after ← pyGetOpt args "insert_after"
  let insert_before ← pyGetOpt args "insert_before"
  let gw ← pyAttr c
  let current_page ← gw.get_page_by_id page_id
  pure (gw, page_id, current_page,
    appendSplice current_page.body new_content insert_before insert_after)

/-- The append_to_page handler (lines 395-436). -/
def appendToPageBranch (c : Option Gateway) (args : Option Args) :
    Except String (List TextContent) × List UpdateRec :=
  match appendPre c args with
  | Except.error e => (Except.ok [tc ("Error inserting content: " ++ e)], [])
  | Except.ok (gw, page_id, current_page, updated_content) =>
    (pyTry
      (do
        let _ ← gw.update_page page_id current_page.title updated_content
        pure [tc ("Content inserted in: " ++ current_page.title
          ++ "\nURL: " ++ gw.url ++ "/pages/viewpage.action?pageId=" ++ page_id)])
      (fun e => "Error inserting content: " ++ e),
     [UpdateRec.mk page_id current_page.title updated_content])

/-- The get_full_page_content handler (lines 439-450). -/
def getFullPageContentBranch (c : Option Gateway) (args : Option Args) :
    Except String (List TextContent) × List UpdateRec :=
  (pyTry
    (do
      let page_id ← pyGetItem args "page_id"
      let gw ← pyAttr c
      let page ← gw.get_page_by_id page_id
      let result := "Page: " ++ page.title ++ "\n" ++ "ID: " ++ page.id ++ "\n"
        ++ "Full content:\n" ++ page.body
      pure [tc result])
    (fun e => "Error getting full page content: " ++ e), [])

/-- The part of the remove_content handler before update_page (lines
454-463). -/
def removePre (c : Option Gateway) (args : Option Args) :
    Except String (Gateway × String × PageRec × String) := do
  let page_id ← pyGetItem args "page_id"
  let content_to_remove ← pyGetItem args "content_to_remove"
  let gw ← pyAttr c
  let current_page ← gw.get_page_by_id page_id
  pure (gw, page_id, current_page, removeSplice current_page.body content_to_remove)

/-- The remove_content handler (lines 453-476). -/
def removeContentBranch (c : Option Gateway) (args : Option Args) :
    Except String (List TextContent) × List UpdateRec :=
  match removePre c args with
  | Except.error e => (Except.ok [tc ("Error removing content: " ++ e)], [])
  | Except.ok (gw, page_id, current_page, updated_content) =>
    (pyTry
      (do
        let _ ← gw.update_page page_id current_page.title updated_content
        pure [tc ("Content removed from: " ++ current_page.title
          ++ "\nURL: " ++ gw.url ++ "/pages/viewpage.action?pageId=" ++ page_id)])
      (fun e => "Error removing content: " ++ e),
     [UpdateRec.mk page_id current_page.title updated_content])

/-- The part of the replace_content handler before update_page (lines
480-490). -/
def replacePre (c : Option Gateway) (args : Option Args) :
    Except String (Gateway × String × PageRec × String) := do
  let page_id ← pyGetItem args "page_id"
  let old_content ← pyGetItem args "old_content"
  let new_content ← pyGetItem args "new_content"
  let gw ← pyAttr c
  let current_page ← gw.get_page_by_id page_id
  pure (gw, page_id, current_page, replaceSplice current_page.body old_content new_content)

/-- The replace_content handler (lines 479-503). -/
def replaceContentBranch (c : Option Gateway) (args : Option Args) :
    Except String (List TextContent) × List UpdateRec :=
  match replacePre c args with
  | Except.error e => (Except.ok [tc ("Error replacing content: " ++ e)], [])
  | Except.ok (gw, page_id, current_page, updated_content) =>
    (pyTry
      (do
        let _ ← gw.update_page page_id current_page.title updated_content
        pure [tc ("Content replaced in: " ++ current_page.title
          ++ "\nURL: " ++ gw.url ++ "/pages/viewpage.action?pageId=" ++ page_id)])
      (fun e => "Error replacing content: " ++ e),
     [UpdateRec.mk page_id current_page.title updated_content])

/-- handle_call_tool (lines 240-507): dispatch on the tool name in
source order; an unrecognized name raises ValueError, modelled by
Except.error.  The second component is the list of update_page calls
performed. -/
def handleCallTool (c : Option Gateway) (name : String) (args : Option Args) :
    Except String (List TextContent) × List UpdateRec :=
  if name = "list_spaces" then listSpacesBranch c
  else if name = "get_pages" then getPagesBranch c args
  else if name = "get_page_content" then getPageContentBranch c args
  else if name = "find_page" then findPageBranch c args
  else if name = "create_page" then createPageBranch c args
  else if name = "create_code_documentation" then createCodeDocumentationBranch c args
  else if name = "append_to_page" then appendToPageBranch c args
  else if name = "get_full_page_content" then getFullPageContentBranch c args
  else if name = "remove_content" then removeContentBranch c args
  else if name = "replace_content" then replaceContentBranch c args
  else (Except.error ("Unknown tool: " ++ name), [])

/-- The ten recognized tool names, in dispatch order. -/
def recognizedToolNames : List String :=
  ["list_spaces", "get_pages", "get_page_content", "find_page", "create_page",
   "create_code_documentation", "append_to_page", "get_full_page_content",
   "remove_content", "replace_content"]

/-- A concrete gateway used to instantiate witnesses. -/
def testGateway : Gateway :=
  Gateway.mk "wiki"
    (fun _ => Except.ok (SpacesResult.mk [SpaceRec.mk "SP" "Space"]))
    (fun _ => Except.ok [])
    (fun _ _ => Except.ok [])
    (fun _ => Except.ok (PageRec.mk "1" "T" "B"))
    (fun _ t b _ => Except.ok (PageRec.mk "2" t b))
    (fun _ _ _ => Except.ok ())

theorem containsSubL_nil_pat (s : List Char) : containsSubL [] s = true := by
  cases s <;> rfl

theorem pyReplaceCore_eq_of_not_contains (old new : List Char) :
    ∀ (fuel : Nat) (s : List Char), containsSubL old s = false →
      pyReplaceCore old new fuel s = s := by
  intro fuel
  induction fuel with
  | zero => intro s _; cases s <;> rfl
  | succ f ih =>
    intro s h
    cases s with
    | nil => rfl
    | cons c t =>
      simp only [containsSubL, Bool.or_eq_false_iff] at h
      simp [pyReplaceCore, h.1, ih t h.2]

theorem pyReplaceL_eq_of_not_contains (s old new : List Char)
    (h : containsSubL old s = false) : pyReplaceL s old new = s := by
  cases old with
  | nil => rw [containsSubL_nil_pat] at h; exact absurd h (by simp)
  | cons a as =>
    unfold pyReplaceL
    rw [if_neg (by simp)]
    exact pyReplaceCore_eq_of_not_contains (a :: as) new s.length s h

/-- When the pattern does not occur in the body, the Python global
replace returns the body unchanged. -/
theorem pyReplace_eq_of_not_occurs (s old new : String)
    (h : subOccurs old s = false) : pyReplace s old new = s := by
  unfold pyReplace
  rw [pyReplaceL_eq_of_not_contains s.data old.data new.data h]

/-- C1: with insert_after set (truthy) and insert_before unset, the
append splice replaces every leftmost non-overlapping occurrence of the
marker by marker followed by the payload whenever the marker occurs in
the body, and on a body in which the marker does not occur it returns
the append-at-end result, identical to calling the splice with no
markers at all. -/
theorem appendAfter_replaces_all_and_falls_back
    (body payload m : String) (h : pyTruthy (some m) = true) :
    (subOccurs m body = true →
      appendSplice body payload none (some m) = pyReplace body m (m ++ payload))
    ∧ (subOccurs m body = false →
      appendSplice body payload none (some m) = appendSplice body payload none none) := by
  constructor
  · intro hocc
    simp [appendSplice, h, hocc, show pyTruthy none = false from rfl]
  · intro habs
    simp [appendSplice, h, habs, show pyTruthy none = false from rfl]

/-- Witness for C1 at body "xy", payload "P", marker "y". -/
theorem appendAfter_replaces_all_and_falls_back_witness :
    (subOccurs "y" "xy" = true →
      appendSplice "xy" "P" none (some "y") = pyReplace "xy" "y" ("y" ++ "P"))
    ∧ (subOccurs "y" "xy" = false →
      appendSplice "xy" "P" none (some "y") = appendSplice "xy" "P" none none) :=
  appendAfter_replaces_all_and_falls_back "xy" "P" "y" (by decide)

/-- C2: with insert_before set (truthy), whatever insert_after is, the
append splice replaces every leftmost non-overlapping occurrence of the
marker by the payload followed by the marker, and falls back to
appending at the end when the marker does not occur in the body. -/
theorem appendBefore_replaces_all_and_falls_back
    (body payload m : String) (ia : Option String) (h : pyTruthy (some m) = true) :
    appendSplice body payload (some m) ia =
      if subOccurs m body then pyReplace body m (payload ++ m)
      else body ++ payload := by
  simp [appendSplice, h]

/-- Witness for C2 at body "xy", payload "P", marker "y". -/
theorem appendBefore_replaces_all_and_falls_back_witness :
    appendSplice "xy" "P" (some "y") none =
      if subOccurs "y" "xy" then pyReplace "xy" "y" ("P" ++ "y")
      else "xy" ++ "P" :=
  appendBefore_replaces_all_and_falls_back "xy" "P" "y" none (by decide)

/-- C3: the remove_content splice is the global replace of the target
by the empty string; a body without any occurrence of the target is
returned unchanged; and on the body "keep this, remove this" with
target "remove this" the result is "keep this, ". -/
theorem removeContent_global_delete (body target : String) :
    removeSplice body target = pyReplace body target ""
    ∧ (subOccurs target body = false → removeSplice body target = body)
    ∧ removeSplice "keep this, remove this" "remove this" = "keep this, " :=
  ⟨rfl, fun h => pyReplace_eq_of_not_occurs body target "" h, by decide⟩

/-- Witness for C3 at body "ab", target "zz". -/
theorem removeContent_global_delete_witness : removeSplice "ab" "zz" = "ab" :=
  (removeContent_global_delete "ab" "zz").2.1 (by decide)

/-- C4: the replace_content splice is the global replace of the target
by the replacement, and a body without any occurrence of the target is
returned unchanged. -/
theorem replaceContent_global_replace (body target repl : String) :
    replaceSplice body target repl = pyReplace body target repl
    ∧ (subOccurs target body = false → replaceSplice body target repl = body) :=
  ⟨rfl, fun h => pyReplace_eq_of_not_occurs body target repl h⟩

/-- Witness for C4 at body "ab", target "zz", replacement "w". -/
theorem replaceContent_global_replace_witness : replaceSplice "ab" "zz" "w" = "ab" :=
  (replaceContent_global_replace "ab" "zz" "w").2 (by decide)

/-- C5 counterexample: deleting "ab" from "aabb" yields "ab", which a
second deletion erases, so the delete splice is not idempotent as
claimed. -/
theorem delete_not_idempotent_counterexample :
    removeSplice (removeSplice "aabb" "ab") "ab" ≠ removeSplice "aabb" "ab" := by
  decide

/-- C5 amended: the delete splice is idempotent whenever the target
does not occur in the result of the first deletion; a deletion can
create a fresh occurrence of the target, in which case the second
application removes more. -/
theorem delete_idempotent_when_target_absent_from_result
    (B T : String) (h : subOccurs T (removeSplice B T) = false) :
    removeSplice (removeSplice B T) T = removeSplice B T :=
  pyReplace_eq_of_not_occurs (removeSplice B T) T "" h

/-- Witness for the amended C5 at body "abc", target "b". -/
theorem delete_idempotent_witness :
    removeSplice (removeSplice "abc" "b") "b" = removeSplice "abc" "b" :=
  delete_idempotent_when_target_absent_from_result "abc" "b" (by decide)

/-- C6 counterexample: the body "X marker X" contains the marker
"marker" once, not twice, so the append-after splice does not produce
the doubled result stated by the claim. -/
theorem appendAfter_example_counterexample :
    appendSplice "X marker X" "!" none (some "marker") ≠ "X marker! X marker! X" := by
  decide

/-- C6 amended: on "X marker X" (one occurrence) the append-after
splice with payload "!" yields "X marker! X"; on a body with two
occurrences, "X marker X marker X", it yields the doubled result
"X marker! X marker! X". -/
theorem appendAfter_concrete_examples :
    appendSplice "X marker X" "!" none (some "marker") = "X marker! X"
    ∧ appendSplice "X marker X marker X" "!" none (some "marker")
        = "X marker! X marker! X" :=
  ⟨by decide, by decide⟩

theorem pyTry_isOk (x : Except String (List TextContent)) (render : String → String) :
    (pyTry x render).isOk = true := by
  cases x <;> rfl

theorem listSpacesBranch_isOk (c : Option Gateway) :
    (listSpacesBranch c).1.isOk = true := by
  cases c with
  | none => rfl
  | some gw => exact pyTry_isOk _ _

theorem getPagesBranch_isOk (c : Option Gateway) (args : Option Args) :
    (getPagesBranch c args).1.isOk = true :=
  pyTry_isOk _ _

theorem getPageContentBranch_isOk (c : Option Gateway) (args : Option Args) :
    (getPageContentBranch c args).1.isOk = true :=
  pyTry_isOk _ _

theorem findPageBranch_isOk (c : Option Gateway) (args : Option Args) :
    (findPageBranch c args).1.isOk = true :=
  pyTry_isOk _ _

theorem createPageBranch_isOk (c : Option Gateway) (args : Option Args) :
    (createPageBranch c args).1.isOk = true := by
  cases c with
  | none => rfl
  | some gw => exact pyTry_isOk _ _

theorem createCodeDocumentationBranch_isOk (c : Option Gateway) (args : Option Args) :
    (createCodeDocumentationBranch c args).1.isOk = true := by
  cases c with
  | none => rfl
  | some gw => exact pyTry_isOk _ _

theorem appendToPageBranch_isOk (c : Option Gateway) (args : Option Args) :
    (appendToPageBranch c args).1.isOk = true := by
  unfold appendToPageBranch
  split
  · rfl
  · exact pyTry_isOk _ _

theorem getFullPageContentBranch_isOk (c : Option Gateway) (args : Option Args) :
    (getFullPageContentBranch c args).1.isOk = true :=
  pyTry_isOk _ _

theorem removeContentBranch_isOk (c : Option Gateway) (args : Option Args) :
    (removeContentBranch c args).1.isOk = true := by
  unfold removeContentBranch
  split
  · rfl
  · exact pyTry_isOk _ _

theorem replaceContentBranch_isOk (c : Option Gateway) (args : Option Args) :
    (replaceContentBranch c args).1.isOk = true := by
  unfold replaceContentBranch
  split
  · rfl
  · exact pyTry_isOk _ _

/-- C7: for every recognized tool name, every gateway behaviour
(including an uninitialized client) and every argument mapping
(including a missing one), handle_call_tool returns a result instead of
propagating an exception: every gateway failure is caught and rendered
as a TextContent message. -/
theorem handleCallTool_recognized_never_errors
    (c : Option Gateway) (args : Option Args) (name : String)
    (h : name ∈ recognizedToolNames) :
    (handleCallTool c name args).1.isOk = true := by
  simp only [recognizedToolNames, List.mem_cons, List.not_mem_nil, or_false] at h
  rcases h with rfl | rfl | rfl | rfl | rfl | rfl | rfl | rfl | rfl | rfl
  · exact listSpacesBranch_isOk c
  · exact getPagesBranch_isOk c args
  · exact getPageContentBranch_isOk c args
  · exact findPageBranch_isOk c args
  · exact createPageBranch_isOk c args
  · exact createCodeDocumentationBranch_isOk c args
  · exact appendToPageBranch_isOk c args
  · exact getFullPageContentBranch_isOk c args
  · exact removeContentBranch_isOk c args
  · exact replaceContentBranch_isOk c args

/-- Witness for C7: list_spaces against the test gateway with no
arguments returns a result. -/
theorem handleCallTool_recognized_never_errors_witness :
    (handleCallTool (some testGateway) "list_spaces" none).1.isOk = true :=
  handleCallTool_recognized_never_errors (some testGateway) none "list_spaces" (by decide)

/-- C8: a tool name outside the ten recognized ones makes
handle_call_tool raise, modelled by an Except.error result carrying the
Unknown tool message, and this is the only case in which the router
fails: on every recognized name it returns a result. -/
theorem handleCallTool_unknown_tool_raises
    (c : Option Gateway) (args : Option Args) (name : String) :
    (name ∉ recognizedToolNames →
      (handleCallTool c name args).1 = Except.error ("Unknown tool: " ++ name))
    ∧ (name ∈ recognizedToolNames → (handleCallTool c name args).1.isOk = true) := by
  constructor
  · intro h
    simp only [recognizedToolNames, List.mem_cons, List.not_mem_nil, or_false,
      not_or] at h
    obtain ⟨h1, h2, h3, h4, h5, h6, h7, h8, h9, h10⟩ := h
    unfold handleCallTool
    rw [if_neg h1, if_neg h2, if_neg h3, if_neg h4, if_neg h5, if_neg h6, if_neg h7,
      if_neg h8, if_neg h9, if_neg h10]
  · intro h
    simp only [recognizedToolNames, List.mem_cons, List.not_mem_nil, or_false] at h
    rcases h with rfl | rfl | rfl | rfl | rfl | rfl | rfl | rfl | rfl | rfl
    · exact listSpacesBranch_isOk c
    · exact getPagesBranch_isOk c args
    · exact getPageContentBranch_isOk c args
    · exact findPageBranch_isOk c args
    · exact createPageBranch_isOk c args
    · exact createCodeDocumentationBranch_isOk c args
    · exact appendToPageBranch_isOk c args
    · exact getFullPageContentBranch_isOk c args
    · exact removeContentBranch_isOk c args
    · exact replaceContentBranch_isOk c args

/-- Witness for C8 at the unrecognized name bogus. -/
theorem handleCallTool_unknown_tool_raises_witness :
    (handleCallTool none "bogus" none).1 = Except.error ("Unknown tool: " ++ "bogus") :=
  (handleCallTool_unknown_tool_raises none none "bogus").1 (by decide)

/-- C9: when both markers are supplied non-empty, insert_before wins:
the result equals the one obtained with insert_after absent, namely the
splice before the insert_before marker, with the append-at-end fallback
when that marker is absent from the body. -/
theorem insertBefore_takes_precedence
    (body payload mb ma : String)
    (hb : pyTruthy (some mb) = true) (_ha : pyTruthy (some ma) = true) :
    appendSplice body payload (some mb) (some ma)
        = appendSplice body payload (some mb) none
    ∧ appendSplice body payload (some mb) (some ma)
        = (if subOccurs mb body then pyReplace body mb (payload ++ mb)
           else body ++ payload) := by
  constructor
  · simp [appendSplice, hb]
  · simp [appendSplice, hb]

/-- Witness for C9 at body "xy", payload "P", markers "y" and "x". -/
theorem insertBefore_takes_precedence_witness :
    appendSplice "xy" "P" (some "y") (some "x")
        = appendSplice "xy" "P" (some "y") none
    ∧ appendSplice "xy" "P" (some "y") (some "x")
        = (if subOccurs "y" "xy" then pyReplace "xy" "y" ("P" ++ "y")
           else "xy" ++ "P") :=
  insertBefore_takes_precedence "xy" "P" "y" "x" (by decide) (by decide)

theorem except_bind_ok {α β : Type} {x : Except String α} {f : α → Except String β}
    {b : β} (h : x >>= f = Except.ok b) :
    ∃ a, x = Except.ok a ∧ f a = Except.ok b := by
  cases x with
  | error e => exact Except.noConfusion h
  | ok a => exact ⟨a, rfl, h⟩

theorem appendToPageBranch_title (gw : Gateway) (args : Option Args) (u : UpdateRec)
    (hu : u ∈ (appendToPageBranch (some gw) args).2) :
    ∃ p, gw.get_page_by_id u.page_id = Except.ok p ∧ u.title = p.title := by
  unfold appendToPageBranch at hu
  rcases hE : appendPre (some gw) args with e | q
  · rw [hE] at hu
    simp at hu
  · obtain ⟨gw2, page_id, current_page, updated⟩ := q
    rw [hE] at hu
    simp only [List.mem_singleton] at hu
    unfold appendPre at hE
    obtain ⟨pid, h1, hE⟩ := except_bind_ok hE
    obtain ⟨nc, h2, hE⟩ := except_bind_ok hE
    obtain ⟨ia, h3, hE⟩ := except_bind_ok hE
    obtain ⟨ib, h4, hE⟩ := except_bind_ok hE
    obtain ⟨gw3, h5, hE⟩ := except_bind_ok hE
    obtain ⟨page, h6, hE⟩ := except_bind_ok hE
    simp only [pure, Except.pure, Except.ok.injEq, Prod.mk.injEq] at hE
    obtain ⟨hgw, hpid, hpage, hupd⟩ := hE
    have hgw3 : gw = gw3 := by simpa [pyAttr] using h5
    subst hu
    refine ⟨current_page, ?_, rfl⟩
    show gw.get_page_by_id page_id = Except.ok current_page
    rw [hgw3, ← hpid, ← hpage]
    exact h6

theorem removeContentBranch_title (gw : Gateway) (args : Option Args) (u : UpdateRec)
    (hu : u ∈ (removeContentBranch (some gw) args).2) :
    ∃ p, gw.get_page_by_id u.page_id = Except.ok p ∧ u.title = p.title := by
  unfold removeContentBranch at hu
  rcases hE : removePre (some gw) args with e | q
  · rw [hE] at hu
    simp at hu
  · obtain ⟨gw2, page_id, current_page, updated⟩ := q
    rw [hE] at hu
    simp only [List.mem_singleton] at hu
    unfold removePre at hE
    obtain ⟨pid, h1, hE⟩ := except_bind_ok hE
    obtain ⟨ctr, h2, hE⟩ := except_bind_ok hE
    obtain ⟨gw3, h5, hE⟩ := except_bind_ok hE
    obtain ⟨page, h6, hE⟩ := except_bind_ok hE
    simp only [pure, Except.pure, Except.ok.injEq, Prod.mk.injEq] at hE
    obtain ⟨hgw, hpid, hpage, hupd⟩ := hE
    have hgw3 : gw = gw3 := by simpa [pyAttr] using h5
    subst hu
    refine ⟨current_page, ?_, rfl⟩
    show gw.get_page_by_id page_id = Except.ok current_page
    rw [hgw3, ← hpid, ← hpage]
    exact h6

theorem replaceContentBranch_title (gw : Gateway) (args : Option Args) (u : UpdateRec)
    (hu : u ∈ (replaceContentBranch (some gw) args).2) :
    ∃ p, gw.get_page_by_id u.page_id = Except.ok p ∧ u.title = p.title := by
  unfold replaceContentBranch at hu
  rcases hE : replacePre (some gw) args with e | q
  · rw [hE] at hu
    simp at hu
  · obtain ⟨gw2, page_id, current_page, updated⟩ := q
    rw [hE] at hu
    simp only [List.mem_singleton] at hu
    unfold replacePre at hE
    obtain ⟨pid, h1, hE⟩ := except_bind_ok hE
    obtain ⟨oc, h2, hE⟩ := except_bind_ok hE
    obtain ⟨nc, h3, hE⟩ := except_bind_ok hE
    obtain ⟨gw3, h5, hE⟩ := except_bind_ok hE
    obtain ⟨page, h6, hE⟩ := except_bind_ok hE
    simp only [pure, Except.pure, Except.ok.injEq, Prod.mk.injEq] at hE
    obtain ⟨hgw, hpid, hpage, hupd⟩ := hE
    have hgw3 : gw = gw3 := by simpa [pyAttr] using h5
    subst hu
    refine ⟨current_page, ?_, rfl⟩
    show gw.get_page_by_id page_id = Except.ok current_page
    rw [hgw3, ← hpid, ← hpage]
    exact h6

/-- C10: every update_page call performed by the three in-place edit
tools passes the title fetched from the current page: for every update
written to the store there is a page fetched under the same id whose
title it reuses, so only the body is modified. -/
theorem edit_tools_preserve_title (gw : Gateway) (name : String) (args : Option Args)
    (u : UpdateRec)
    (hname : name ∈ ["append_to_page", "remove_content", "replace_content"])
    (hu : u ∈ (handleCallTool (some gw) name args).2) :
    ∃ p, gw.get_page_by_id u.page_id = Except.ok p ∧ u.title = p.title := by
  simp only [List.mem_cons, List.not_mem_nil, or_false] at hname
  rcases hname with rfl | rfl | rfl
  · exact appendToPageBranch_title gw args u hu
  · exact removeContentBranch_title gw args u hu
  · exact replaceContentBranch_title gw args u hu

/-- Witness for C10: an append_to_page run against the test gateway
performs exactly one update, whose title is the fetched one. -/
theorem edit_tools_preserve_title_witness :
    ∃ p, testGateway.get_page_by_id "1" = Except.ok p ∧ ("T" : String) = p.title :=
  edit_tools_preserve_title testGateway "append_to_page"
    (some [("page_id", "1"), ("new_content", "N")])
    (UpdateRec.mk "1" "T" "BN") (by decide) (by decide)

end AtlassianMCP
